import Mathlib

/-!
Verification of the indexing-orchestration and search-normalization core of the
semantic video search repository.

The Python sources are embedded shallowly:

* JSON-ish dynamic values that the code probes defensively (`dict.get`,
  `getattr` with defaults) become explicit optional fields;
* network calls of the Twelve Labs SDK become explicit outcome parameters of
  type `Except String _` (the exception the call would raise is the `.error`
  case);
* file I/O on the embeddings catalog becomes explicit state passing;
* numeric scores are represented by `ℚ` (exact rationals standing for the
  real-number values the code computes with).
-/

set_option autoImplicit false

namespace SVS

/-! ### Raw dynamic fields

A field of a raw search-hit dictionary can be missing from the dictionary,
present with value `None`, or present with a string value.  `dict.get` with a
default distinguishes the first case from the other two. -/

/-- A string-valued field of a raw JSON dictionary: missing key, key present
with `None`, or key present with a string. -/
inductive RawOptField where
  | absent
  | null
  | str (s : String)
deriving DecidableEq

/-- Model of Python `dict.get(key, default)` restricted to one field: a missing
key yields the default, a key present with `None` yields `none`, and a string
value yields `some`. -/
def RawOptField.pyGet (f : RawOptField) (dflt : Option String) : Option String :=
  match f with
  | .absent => dflt
  | .null => none
  | .str s => some s

/-- A raw confidence value as the remote service reports it: either a string
label or a numeric score. -/
inductive ConfVal where
  | str (s : String)
  | num (q : ℚ)
deriving DecidableEq

/-! ### Data model -/

/-- One video record of the persisted catalog, as built by
`EmbeddingGenerator.upload_video` in `src/embeddings/generate.py`. -/
structure VideoData where
  video_id : String
  task_id : String
  filename : String
  filepath : String
  status : String
deriving DecidableEq

/-- A raw search-hit dictionary as consumed by the `/search` endpoint
(`search_videos` in `src/api/main.py`); every field is probed defensively. -/
structure RawItem where
  video_id : Option String := none
  confidence : Option ConfVal := none
  score : Option ℚ := none
  start : Option ℚ := none
  stop : Option ℚ := none
  metadata_filename : Option String := none
  clip_text : RawOptField := .absent
  thumbnail_url : RawOptField := .absent
deriving DecidableEq

/-- The keyword arguments the `/search` loop passes to the pydantic
`SearchResult` constructor (`src/api/main.py` lines 189-199), before the
model's field validation runs.  Line 192 passes the raw confidence value —
string or number — straight in, with `"unknown"` substituted when the field
is absent; the `confidence: str` declaration of the pydantic model itself
(line 38) is a separate validation step, modelled below by
`pydanticStrStrict` and `pydanticStrCoerce`. -/
structure SearchResultArgs where
  video_id : String
  filename : String
  confidence : ConfVal
  score : ℚ
  start : ℚ
  stop : ℚ
  clip_text : String
  thumbnail_url : Option String
  video_filepath : String
deriving DecidableEq

/-- The `/search` response body (`SearchResponse` of `src/api/main.py`),
carrying the rows the loop assembled. -/
structure SearchResponse where
  query : String
  results : List SearchResultArgs
  total_results : ℕ
deriving DecidableEq

/-! ### Confidence normalization

`src/api/main.py` line 192 substitutes `"unknown"` for an absent confidence
field and passes the value into the pydantic `SearchResult` constructor,
whose field is declared `confidence: str` (line 38).  That declaration is a
typed boundary: under pydantic v2 a non-string value raises a
ValidationError (caught at line 201, which drops the hit and aborts the
rest of the loop); under pydantic v1 a numeric value is coerced to its
Python `str()` rendering.  The frontend (`src/frontend/app.py` lines
292-310) then branches on `isinstance(confidence_value, str)`: a string is
displayed unchanged, and only a non-string would reach the numeric
threshold branch. -/

/-- Model of `item.get("confidence", "unknown")` in `search_videos`
(`src/api/main.py` line 192). -/
def apiConfidence (c : Option ConfVal) : ConfVal :=
  c.getD (ConfVal.str "unknown")

/-- The validation pydantic v2 applies to the `confidence: str` field of
`SearchResult` (`src/api/main.py` line 38): a string passes unchanged and a
numeric value raises a ValidationError, modelled as `none`. -/
def pydanticStrStrict : ConfVal → Option String
  | .str s => some s
  | .num _ => none

/-- The coercion pydantic v1 applies to the same field: a string passes
unchanged and a numeric value becomes its Python `str()` rendering, which
is supplied as the parameter `render`. -/
def pydanticStrCoerce (render : ℚ → String) : ConfVal → String
  | .str s => s
  | .num q => render q

/-- The character alphabet of Python's `str()` rendering of a float —
decimal or scientific notation, `inf` and `nan` (external contract of the
Python runtime).  Used to state that a coerced number is never one of the
band labels. -/
def pyFloatChars : List Char :=
  ['0', '1', '2', '3', '4', '5', '6', '7', '8', '9',
   '.', '+', '-', 'e', 'i', 'n', 'f', 'a']

/-- The confidence-band computation of `src/frontend/app.py` lines 292-310
as written: a string value is displayed unchanged, a numeric value is
classified by thresholds.  A value arriving through the API is always a
string, so the numeric branch is reachable only from other callers. -/
def confidenceBand (c : ConfVal) : String :=
  match c with
  | .str s => s
  | .num q => if q > 7/10 then "high" else if q > 4/10 then "medium" else "low"

/-- The confidence label of a raw hit through the whole pipeline under
pydantic v2: the dict-get default, then the strict `str` field validation
(`none` = the hit is dropped), then the frontend's string branch. -/
def confidenceLabelStrict (c : Option ConfVal) : Option String :=
  (pydanticStrStrict (apiConfidence c)).map (fun s => confidenceBand (.str s))

/-- The confidence label of a raw hit through the whole pipeline under
pydantic v1, with `render` the Python `str()` rendering of floats. -/
def confidenceLabelCoerce (render : ℚ → String) (c : Option ConfVal) : String :=
  confidenceBand (.str (pydanticStrCoerce render (apiConfidence c)))

/-! ### The per-hit normalization of the query service -/

/-- Model of Python list slicing `xs[:m]` where `m` may be negative. -/
def pySlice {α : Type} (m : ℤ) (xs : List α) : List α :=
  if 0 ≤ m then xs.take m.toNat else xs.take (xs.length - (-m).toNat)

/-- Normalization of one raw search hit by `search_videos`
(`src/api/main.py` lines 162-199): defensive field extraction, coercion of a
null or absent `clip_text` to `""`, preservation of `thumbnail_url`, and the
catalog join used to resolve `filename` and `video_filepath`. -/
def normalizeItem (videos : List VideoData) (item : RawItem) : SearchResultArgs :=
  let filename0 := item.metadata_filename.getD "unknown"
  let clipText := ((item.clip_text).pyGet (some "")).getD ""
  let thumbnailUrl := (item.thumbnail_url).pyGet none
  let videoId := item.video_id.getD ""
  match videos.find? (fun v => v.video_id == videoId) with
  | some v =>
      { video_id := videoId
        filename := v.filename
        confidence := apiConfidence item.confidence
        score := item.score.getD 0
        start := item.start.getD 0
        stop := item.stop.getD 0
        clip_text := clipText
        thumbnail_url := thumbnailUrl
        video_filepath := v.filepath }
  | none =>
      { video_id := videoId
        filename := filename0
        confidence := apiConfidence item.confidence
        score := item.score.getD 0
        start := item.start.getD 0
        stop := item.stop.getD 0
        clip_text := clipText
        thumbnail_url := thumbnailUrl
        video_filepath := "unknown" }

/-- The result-assembly step of the `/search` endpoint (`src/api/main.py`
lines 151-213): the raw hits are truncated by `data_items[:max_results]`,
each remaining hit is normalized, and `total_results` is the length of the
assembled list. -/
def searchVideos (videos : List VideoData) (q : String) (maxResults : ℤ)
    (dataItems : List RawItem) : SearchResponse :=
  let rs := (pySlice maxResults dataItems).map (normalizeItem videos)
  { query := q, results := rs, total_results := rs.length }

/-! ### Remote service client (`src/embeddings/twelve_labs_client.py`)

Every method of `TwelveLabsClient` wraps its whole body in `try/except` and
returns a tagged dictionary `{"success": True, "data": ...}` or
`{"success": False, "error": str(e)}`.  The tagged result is `TLResult`;
the outcome of the underlying SDK call is an explicit `Except String _`
parameter whose `.error` case is the exception the call would raise. -/

/-- The tagged success/failure dictionary every `TwelveLabsClient` method
returns. -/
inductive TLResult (α : Type) where
  | ok (data : α)
  | err (error : String)
deriving DecidableEq

/-- An SDK clip object as accessed by the result loops of `search_text` and
`search_image`; `none` models an attribute that is missing (so that the
`getattr` default applies). -/
structure Clip where
  video_id : String
  confidence : Option ConfVal := none
  score : Option ℚ := none
  start : Option ℚ := none
  stop : Option ℚ := none
  filename : Option String := none
  transcription : Option String := none
  thumbnail_url : Option String := none
deriving DecidableEq

/-- One top-level entry of a remote search response: either a grouped entry
(one per video, carrying a list of clip hits) or a flat entry (one per hit). -/
inductive RespItem where
  | grouped (id : String) (clips : List Clip)
  | flat (c : Clip)
deriving DecidableEq

/-- A flattened search-hit dictionary as both search methods build it:
every key present, `getattr` defaults filled in. -/
structure RawHit where
  video_id : String
  confidence : ConfVal
  score : ℚ
  start : ℚ
  stop : ℚ
  metadata_filename : String
  clip_text : String
  thumbnail_url : String
deriving DecidableEq

/-- The dictionary built for one clip (`twelve_labs_client.py` lines 169-178
and, with identical defaults, lines 185-194 for an individual item). -/
def hitOfClip (c : Clip) : RawHit :=
  { video_id := c.video_id
    confidence := c.confidence.getD (.num 0)
    score := c.score.getD 0
    start := c.start.getD 0
    stop := c.stop.getD 0
    metadata_filename := c.filename.getD "unknown"
    clip_text := c.transcription.getD ""
    thumbnail_url := c.thumbnail_url.getD "" }

/-- Processing of one top-level response entry (`twelve_labs_client.py`
lines 165-194).  A grouped entry whose clip list is empty fails the
truthiness test `item.clips` and is handled by the individual-result branch,
whose `getattr` defaults then fill every field. -/
def flattenRespItem : RespItem → List RawHit
  | .grouped _ clips =>
      if clips.isEmpty then
        [{ video_id := ""
           confidence := .num 0
           score := 0
           start := 0
           stop := 0
           metadata_filename := "unknown"
           clip_text := ""
           thumbnail_url := "" }]
      else clips.map hitOfClip
  | .flat c => [hitOfClip c]

/-- The result list built by `TwelveLabsClient.search_text`
(`twelve_labs_client.py` lines 154-204).  The loop breaks once
`item_count >= 5` (comment in the source: limiting to the first 5 results
for debugging), so only the first five top-level entries are processed. -/
def searchTextResults (items : List RespItem) : List RawHit :=
  (items.take 5).flatMap flattenRespItem

/-- The result list built by `TwelveLabsClient.search_image`
(`twelve_labs_client.py` lines 254-299); it has no item-count break and
processes every top-level entry. -/
def searchImageResults (items : List RespItem) : List RawHit :=
  items.flatMap flattenRespItem

/-- The remote index objects returned by `client.indexes.list()`;
`index_name` is `none` when the attribute is missing (the code guards with
`hasattr`). -/
structure RemoteIndex where
  id : String
  index_name : Option String
deriving DecidableEq

/-- The task object returned by `client.tasks.retrieve` and
`client.tasks.wait_for_done`. -/
structure TaskStatus where
  status : String
  video_id : String
deriving DecidableEq

/-- `TwelveLabsClient.test_connection`: lists the indexes, tagging the
outcome. -/
def clientTestConnection (remote : Except String (List RemoteIndex)) :
    TLResult (List RemoteIndex) :=
  match remote with
  | .ok idxs => .ok idxs
  | .error e => .err e

/-- `TwelveLabsClient.create_index`: the success data is
`{"_id": index.id, "name": index_name}`. -/
def clientCreateIndex (indexName : String) (remote : Except String String) :
    TLResult (String × String) :=
  match remote with
  | .ok newId => .ok (newId, indexName)
  | .error e => .err e

/-- `TwelveLabsClient.upload_video`: the success data is the created task id;
a failure of the file open or of `tasks.create` is the `.error` case. -/
def clientUploadVideo (remote : Except String String) : TLResult String :=
  match remote with
  | .ok taskId => .ok taskId
  | .error e => .err e

/-- `TwelveLabsClient.get_task_status`. -/
def clientGetTaskStatus (remote : Except String TaskStatus) :
    TLResult TaskStatus :=
  match remote with
  | .ok t => .ok t
  | .error e => .err e

/-- `TwelveLabsClient.wait_for_task_completion`: a task that ends in any
status other than `"ready"` is reported as a tagged failure. -/
def clientWaitForTaskCompletion (remote : Except String TaskStatus) :
    TLResult TaskStatus :=
  match remote with
  | .ok t =>
      if t.status ≠ "ready" then .err ("Indexing failed with status " ++ t.status)
      else .ok t
  | .error e => .err e

/-- `TwelveLabsClient.search_text` as a whole: the flattened hits on success,
the exception string on failure. -/
def clientSearchText (remote : Except String (List RespItem)) :
    TLResult (List RawHit) :=
  match remote with
  | .ok items => .ok (searchTextResults items)
  | .error e => .err e

/-- `TwelveLabsClient.search_image` as a whole. -/
def clientSearchImage (remote : Except String (List RespItem)) :
    TLResult (List RawHit) :=
  match remote with
  | .ok items => .ok (searchImageResults items)
  | .error e => .err e

/-! ### Indexing orchestrator (`src/embeddings/generate.py`) -/

/-- The remote outcomes one video's indexing run can observe: the result of
`client.upload_video` (a task id) and of `client.wait_for_task_completion`
(a video id), each as the tagged result the client returns. -/
structure UploadEnv where
  uploadResult : TLResult String
  waitResult : TLResult String
deriving DecidableEq

/-- One video file of the batch together with the remote outcomes its
processing will observe. -/
structure FileJob where
  name : String
  path : String
  env : UploadEnv
deriving DecidableEq

/-- `EmbeddingGenerator.upload_video` (`generate.py` lines 76-110): `none` on
a failed upload or a failed wait, otherwise the record appended to the
catalog — always with `status = "ready"`. -/
def uploadVideo (j : FileJob) : Option VideoData :=
  match j.env.uploadResult with
  | .err _ => none
  | .ok taskId =>
      match j.env.waitResult with
      | .err _ => none
      | .ok videoId =>
          some { video_id := videoId
                 task_id := taskId
                 filename := j.name
                 filepath := j.path
                 status := "ready" }

/-- The loop body of `EmbeddingGenerator.generate_embeddings`
(`generate.py` lines 126-133): a successful video is appended to
`embeddings_data["videos"]`, a failed one is skipped. -/
def generateStep (acc : List VideoData) (j : FileJob) : List VideoData :=
  match uploadVideo j with
  | some vd => acc ++ [vd]
  | none => acc

/-- The video list accumulated by `EmbeddingGenerator.generate_embeddings`
over a batch, starting from the constructor's empty list. -/
def generateEmbeddings (jobs : List FileJob) : List VideoData :=
  jobs.foldl generateStep []

/-- The orchestrator state observable during a batch run: the in-memory
video list, the content of the persisted embeddings file, and how many times
`save_embeddings` has run. -/
structure OrchState where
  catalog : List VideoData
  persisted : List VideoData
  saves : ℕ
deriving DecidableEq

/-- Initial state of a batch run: empty in-memory list (the constructor's
`embeddings_data`), an arbitrary pre-existing persisted file `p0`, no saves
yet. -/
def initState (p0 : List VideoData) : OrchState :=
  { catalog := [], persisted := p0, saves := 0 }

/-- One iteration of the `generate_embeddings` loop, with the persistence
state carried along: the loop body (`generate.py` lines 126-133) contains no
call to `save_embeddings`, so `persisted` and `saves` are untouched. -/
def processVideo (s : OrchState) (j : FileJob) : OrchState :=
  { s with catalog := generateStep s.catalog j }

/-- `EmbeddingGenerator.save_embeddings` (`generate.py` lines 141-144):
overwrite the persisted file with the in-memory data. -/
def saveEmbeddings (s : OrchState) : OrchState :=
  { s with persisted := s.catalog, saves := s.saves + 1 }

/-- `EmbeddingGenerator.generate_embeddings` with persistence made explicit:
the loop over all files followed by the single `save_embeddings()` call at
line 135. -/
def generateEmbeddingsRun (p0 : List VideoData) (jobs : List FileJob) :
    OrchState :=
  saveEmbeddings (jobs.foldl processVideo (initState p0))

/-- The collection name `EmbeddingGenerator.create_index` resolves
(`generate.py` line 41). -/
def pocIndexName : String := "semantic_video_search_poc"

/-- `TwelveLabsClient` listing as seen by `create_index`: either the true
list of remote indexes or a tagged failure of the listing call. -/
def listCollections (remote : List RemoteIndex) (failure : Option String) :
    TLResult (List RemoteIndex) :=
  match failure with
  | some e => .err e
  | none => .ok remote

/-- `EmbeddingGenerator.create_index` (`generate.py` lines 39-74): if the
listing succeeds and some index carries `index_name` equal to
`pocIndexName`, that index's id is reused; in every other case (no match,
empty listing, or a failed listing call) a new index is created.  The result
is the resolved index id paired with whether a creation happened; `none`
models the `False` return on a failed creation. -/
def createIndexResolve (listing : TLResult (List RemoteIndex))
    (createResult : TLResult String) : Option (String × Bool) :=
  let fallback : Option (String × Bool) :=
    match createResult with
    | .ok newId => some (newId, true)
    | .err _ => none
  match listing with
  | .ok idxs =>
      match idxs.find? (fun i => i.index_name == some pocIndexName) with
      | some idx => some (idx.id, false)
      | none => fallback
  | .err _ => fallback

/-! ### Catalog persistence (`generate.py` lines 141-152)

`save_embeddings` serializes `{"index_id": ..., "videos": [...]}` with
`json.dump`; `load_embeddings` and the readers in `src/api/main.py` read the
fields back with `dict.get` and its defaults.  The file content is modelled
as the JSON value written. -/

/-- A JSON value. -/
inductive Json where
  | null
  | str (s : String)
  | num (q : ℚ)
  | boolean (b : Bool)
  | arr (xs : List Json)
  | obj (kvs : List (String × Json))

/-- First-match key lookup on a JSON object, the behavior of `dict` access
for the unique-keyed dictionaries the code writes. -/
def Json.lookupKey (j : Json) (k : String) : Option Json :=
  match j with
  | .obj kvs => kvs.lookup k
  | _ => none

/-- Model of `d.get(key, default)` for a string-valued field. -/
def Json.getStr (j : Json) (k : String) (dflt : String) : String :=
  match j.lookupKey k with
  | some (.str s) => s
  | _ => dflt

/-- The whole persisted catalog: the index id (absent until an index is
resolved) and the video records. -/
structure Catalog where
  index_id : Option String
  videos : List VideoData
deriving DecidableEq

/-- The JSON dictionary written for one video record
(`upload_video`, `generate.py` lines 102-108). -/
def encodeVideo (v : VideoData) : Json :=
  .obj [("video_id", .str v.video_id),
        ("task_id", .str v.task_id),
        ("filename", .str v.filename),
        ("filepath", .str v.filepath),
        ("status", .str v.status)]

/-- The JSON value `save_embeddings` writes: the `embeddings_data` dictionary
`{"index_id": ..., "videos": [...]}`. -/
def encodeCatalog (c : Catalog) : Json :=
  .obj [("index_id", match c.index_id with | none => .null | some s => .str s),
        ("videos", .arr (c.videos.map encodeVideo))]

/-- Reading one video record back, with the defaults the readers use
(`src/api/main.py` lines 180-184 and the `/videos` endpoint). -/
def decodeVideo (j : Json) : VideoData :=
  { video_id := j.getStr "video_id" ""
    task_id := j.getStr "task_id" ""
    filename := j.getStr "filename" "unknown"
    filepath := j.getStr "filepath" "unknown"
    status := j.getStr "status" "" }

/-- Reading the whole catalog back: `data.get("index_id")` and
`data.get("videos", [])`. -/
def decodeCatalog (j : Json) : Catalog :=
  { index_id :=
      match j.lookupKey "index_id" with
      | some (.str s) => some s
      | _ => none
    videos :=
      (match j.lookupKey "videos" with
       | some (.arr xs) => xs
       | _ => []).map decodeVideo }

/-! ### Local similarity cache (`src/database/vector_db.py`)

`VectorDatabase.search` normalizes the query and asks the FAISS
`IndexFlatIP` for the top `k` entries.  FAISS is external; its documented
contract is embedded: the result rows are the stored vectors ordered by
decreasing inner-product score, truncated to `k`, and padded with label `-1`
(and an engine-chosen padding score) when fewer than `k` vectors are stored.
The similarity scores of the stored vectors against the query are a
parameter `scores` (they are the cosine similarities of the L2-normalized
vectors; their exact values are irrelevant to the properties below). -/

/-- A metadata record of the vector index
(`build_vector_database`, `vector_db.py` lines 116-123). -/
structure VecMeta where
  video_id : String
  filename : String
  filepath : String
deriving DecidableEq

/-- Insertion into a list of (score, label) rows kept in decreasing score
order. -/
def insertScoreDesc (p : ℚ × ℤ) : List (ℚ × ℤ) → List (ℚ × ℤ)
  | [] => [p]
  | q :: qs => if q.1 ≤ p.1 then p :: q :: qs else q :: insertScoreDesc p qs

/-- Sorting (score, label) rows by decreasing score. -/
def sortScoresDesc : List (ℚ × ℤ) → List (ℚ × ℤ)
  | [] => []
  | p :: ps => insertScoreDesc p (sortScoresDesc ps)

/-- The FAISS `IndexFlatIP.search` contract for one query: the stored
vectors' scores paired with their labels, ordered by decreasing score,
truncated to `k` and padded to `k` rows with label `-1` and the padding
score `pad`. -/
def faissSearchIP (scores : List ℚ) (pad : ℚ) (k : ℕ) : List (ℚ × ℤ) :=
  let ranked := (sortScoresDesc (scores.enum.map (fun p => (p.2, (p.1 : ℤ))))).take k
  ranked ++ List.replicate (k - ranked.length) (pad, -1)

/-- Python list indexing `xs[i]`, including negative indices counting from
the end; `none` is an `IndexError`. -/
def pyIndex {α : Type} (xs : List α) (i : ℤ) : Option α :=
  if 0 ≤ i then xs.get? i.toNat
  else
    if 0 ≤ (xs.length : ℤ) + i then xs.get? ((xs.length : ℤ) + i).toNat
    else none

/-- `VectorDatabase.search` (`vector_db.py` lines 63-78): each returned row
whose label passes the guard `idx < len(self.metadata)` contributes the pair
`(self.metadata[idx], score)` — with Python's negative indexing when the
label is the FAISS padding value `-1`. -/
def vdbSearch (metadata : List VecMeta) (scores : List ℚ) (pad : ℚ) (k : ℕ) :
    List (VecMeta × ℚ) :=
  (faissSearchIP scores pad k).filterMap (fun p =>
    if p.2 < (metadata.length : ℤ) then
      match pyIndex metadata p.2 with
      | some m => some (m, p.1)
      | none => none
    else none)

/-! ### Concrete values used by counterexamples and witnesses -/

/-- A job whose remote upload call fails. -/
def jobFail : FileJob :=
  { name := "a.mp4"
    path := "data/videos/a.mp4"
    env := { uploadResult := .err "ConnectionError", waitResult := .ok "vid-a" } }

/-- A job whose upload and wait both succeed. -/
def jobOkA : FileJob :=
  { name := "a.mp4"
    path := "data/videos/a.mp4"
    env := { uploadResult := .ok "task-a", waitResult := .ok "vid-a" } }

/-- A second fully successful job. -/
def jobOkB : FileJob :=
  { name := "b.mp4"
    path := "data/videos/b.mp4"
    env := { uploadResult := .ok "task-b", waitResult := .ok "vid-b" } }

/-- The record `jobOkA` produces. -/
def vdA : VideoData :=
  { video_id := "vid-a", task_id := "task-a", filename := "a.mp4"
    filepath := "data/videos/a.mp4", status := "ready" }

/-- A remote index already carrying the orchestrator's collection name. -/
def existingIdx : RemoteIndex :=
  { id := "idx-old", index_name := some pocIndexName }

/-- A remote search response of six flat (one-per-hit) entries. -/
def sixFlatItems : List RespItem :=
  [.flat { video_id := "v1" }, .flat { video_id := "v2" },
   .flat { video_id := "v3" }, .flat { video_id := "v4" },
   .flat { video_id := "v5" }, .flat { video_id := "v6" }]

/-- A raw hit whose `clip_text` is present with value `None` and whose
`thumbnail_url` is present with the empty string. -/
def sampleItem : RawItem :=
  { video_id := some "vid-a", clip_text := .null, thumbnail_url := .str "" }

/-- A raw hit with every optional field missing. -/
def emptyItem : RawItem := {}

/-- The single metadata record of a one-vector index. -/
def vecMeta0 : VecMeta :=
  { video_id := "vid-a", filename := "a.mp4", filepath := "data/videos/a.mp4" }

/-! ## Helper lemmas -/

/-- One video record decodes back to itself. -/
theorem decodeVideo_encodeVideo (v : VideoData) : decodeVideo (encodeVideo v) = v := rfl

/-- The `clip_text` field of a normalized result does not depend on the
catalog join. -/
theorem normalizeItem_clip_text_eq (videos : List VideoData) (item : RawItem) :
    (normalizeItem videos item).clip_text =
      ((item.clip_text).pyGet (some "")).getD "" := by
  simp only [normalizeItem]
  split <;> rfl

/-- The `thumbnail_url` field of a normalized result does not depend on the
catalog join. -/
theorem normalizeItem_thumbnail_eq (videos : List VideoData) (item : RawItem) :
    (normalizeItem videos item).thumbnail_url = (item.thumbnail_url).pyGet none := by
  simp only [normalizeItem]
  split <;> rfl

/-- The catalog loop of `generate_embeddings` appends exactly the successful
records, in order. -/
theorem generateStep_foldl (jobs : List FileJob) (acc : List VideoData) :
    jobs.foldl generateStep acc = acc ++ jobs.filterMap uploadVideo := by
  induction jobs generalizing acc with
  | nil => simp
  | cons j js ih =>
      simp only [List.foldl_cons, List.filterMap_cons, generateStep]
      cases h : uploadVideo j <;> simp [ih]

/-- The batch catalog is the list of successfully uploaded records. -/
theorem generateEmbeddings_eq_filterMap (jobs : List FileJob) :
    generateEmbeddings jobs = jobs.filterMap uploadVideo := by
  simpa using generateStep_foldl jobs []

/-- Every record `upload_video` produces carries `status = "ready"`. -/
theorem uploadVideo_status (j : FileJob) (r : VideoData)
    (h : uploadVideo j = some r) : r.status = "ready" := by
  unfold uploadVideo at h
  cases hu : j.env.uploadResult with
  | err e => rw [hu] at h; cases h
  | ok taskId =>
      rw [hu] at h
      cases hw : j.env.waitResult with
      | err e => rw [hw] at h; cases h
      | ok videoId => rw [hw] at h; cases h; rfl

/-- Decoding a list of encoded video records recovers the list. -/
theorem map_decodeVideo_encodeVideo (vids : List VideoData) :
    List.map (decodeVideo ∘ encodeVideo) vids = vids := by
  induction vids with
  | nil => rfl
  | cons v vs ih => simp [ih, decodeVideo_encodeVideo]

/-- The loop of `generate_embeddings` never touches the persisted file nor
the save counter; it only extends the in-memory catalog. -/
theorem foldl_processVideo (jobs : List FileJob) (s : OrchState) :
    jobs.foldl processVideo s =
      { catalog := s.catalog ++ jobs.filterMap uploadVideo
        persisted := s.persisted
        saves := s.saves } := by
  induction jobs generalizing s with
  | nil => simp
  | cons j js ih =>
      simp only [List.foldl_cons, List.filterMap_cons, processVideo, generateStep]
      cases h : uploadVideo j <;> simp [ih]

/-! ## Claim C1 -/

/-- A string drawn from the float-rendering alphabet is never one of the
three band labels: `high` contains an `h`, `medium` an `m` and `low` an
`l`, none of which Python's `str()` of a float can produce. -/
theorem floatRender_not_band (s : String) (h : ∀ c ∈ s.data, c ∈ pyFloatChars) :
    s ≠ "high" ∧ s ≠ "medium" ∧ s ≠ "low" := by
  refine ⟨?_, ?_, ?_⟩ <;> intro heq <;> subst heq
  · exact absurd (h 'h' (by decide)) (by decide)
  · exact absurd (h 'm' (by decide)) (by decide)
  · exact absurd (h 'l' (by decide)) (by decide)

/-- Claim C1, counterexample: a raw confidence that is a string outside
{high, medium, low} (hence not numeric either) survives the `str` field
validation under either pydantic semantics and is displayed as itself, not
as `"unknown"` — `"unknown"` is produced only for an absent confidence
field. -/
theorem confidenceLabel_unrecognized_not_unknown :
    "banana" ≠ "high" ∧ "banana" ≠ "medium" ∧ "banana" ≠ "low" ∧
    confidenceLabelStrict (some (ConfVal.str "banana")) = some "banana" ∧
    confidenceLabelStrict (some (ConfVal.str "banana")) ≠ some "unknown" ∧
    confidenceLabelCoerce (fun _ => "") (some (ConfVal.str "banana")) = "banana" :=
  ⟨by decide, by decide, by decide, rfl, by decide, rfl⟩

/-- Claim C1, amended: a string confidence is passed through and displayed
unchanged whether or not it is one of high/medium/low, an absent field is
labelled `"unknown"`, and a numeric confidence is never classified into the
bands: the pydantic `confidence: str` field either rejects the hit
(pydantic v2 — the validation error drops it) or coerces the number to its
`str()` rendering (pydantic v1), and that rendering — displayed unchanged
by the frontend's string branch — is never `"high"`, `"medium"` or
`"low"`. -/
theorem confidenceLabel_spec :
    confidenceLabelStrict none = some "unknown" ∧
    (∀ render, confidenceLabelCoerce render none = "unknown") ∧
    (∀ s, confidenceLabelStrict (some (ConfVal.str s)) = some s) ∧
    (∀ render s, confidenceLabelCoerce render (some (ConfVal.str s)) = s) ∧
    (∀ q, confidenceLabelStrict (some (ConfVal.num q)) = none) ∧
    (∀ render q, (∀ c ∈ (render q).data, c ∈ pyFloatChars) →
        confidenceLabelCoerce render (some (ConfVal.num q)) = render q ∧
        render q ≠ "high" ∧ render q ≠ "medium" ∧ render q ≠ "low") := by
  refine ⟨rfl, fun render => rfl, fun s => rfl, fun render s => rfl,
    fun q => rfl, fun render q h => ⟨rfl, floatRender_not_band (render q) h⟩⟩

/-- Claim C1, witness: the amended theorem at a concrete numeric score 0.9
whose pydantic v1 rendering is the digit string `"0.9"` — displayed as-is,
never a band label. -/
theorem confidenceLabel_spec_witness :
    confidenceLabelCoerce (fun _ => "0.9") (some (ConfVal.num (9/10))) = "0.9" ∧
    "0.9" ≠ "high" ∧ "0.9" ≠ "medium" ∧ "0.9" ≠ "low" :=
  confidenceLabel_spec.2.2.2.2.2 (fun _ => "0.9") (9/10) (by decide)

/-! ## Claim C2 -/

/-- Claim C2: for a result bound of at least 1 (the bound the contract
admits), the endpoint returns at most `maxResults` normalized results — the
raw hit list is truncated before normalization, whatever its length — and
`total_results` is the length of the returned list, not the requested
count. -/
theorem searchVideos_result_bound (videos : List VideoData) (q : String)
    (m : ℤ) (items : List RawItem) (hm : 1 ≤ m) :
    ((searchVideos videos q m items).results.length : ℤ) ≤ m ∧
    (searchVideos videos q m items).total_results =
      (searchVideos videos q m items).results.length := by
  refine ⟨?_, rfl⟩
  have h := items.length_take_le m.toNat
  simp only [searchVideos, pySlice, List.length_map]
  rw [if_pos (by omega : (0:ℤ) ≤ m)]
  omega

/-- Claim C2, witness: a bound of 1 against a remote response of two hits
yields one result and a matching `total_results`. -/
theorem searchVideos_result_bound_witness :
    ((searchVideos [] "query" 1 [emptyItem, sampleItem]).results.length : ℤ) ≤ 1 ∧
    (searchVideos [] "query" 1 [emptyItem, sampleItem]).total_results =
      (searchVideos [] "query" 1 [emptyItem, sampleItem]).results.length :=
  searchVideos_result_bound [] "query" 1 [emptyItem, sampleItem] (by norm_num)

/-! ## Claim C3 -/

/-- Claim C3: a null or absent raw `clip_text` is coerced to `""` and a
present string is kept, so `clip_text` is always a string; a null or absent
raw `thumbnail_url` stays `none` — never the empty string — while a
present-but-empty one stays `some ""`, distinct from `none`. -/
theorem normalizeItem_clipText_thumbnail (videos : List VideoData) (item : RawItem) :
    ((item.clip_text = .absent ∨ item.clip_text = .null) →
        (normalizeItem videos item).clip_text = "") ∧
    (∀ s, item.clip_text = .str s → (normalizeItem videos item).clip_text = s) ∧
    ((item.thumbnail_url = .absent ∨ item.thumbnail_url = .null) →
        (normalizeItem videos item).thumbnail_url = none) ∧
    (∀ s, item.thumbnail_url = .str s →
        (normalizeItem videos item).thumbnail_url = some s) ∧
    (item.thumbnail_url = .str "" →
        (normalizeItem videos item).thumbnail_url = some "" ∧
        (normalizeItem videos item).thumbnail_url ≠ none) := by
  refine ⟨fun h => ?_, fun s h => ?_, fun h => ?_, fun s h => ?_, fun h => ?_⟩
  · rcases h with h | h <;>
      simp [normalizeItem_clip_text_eq, h, RawOptField.pyGet]
  · simp [normalizeItem_clip_text_eq, h, RawOptField.pyGet]
  · rcases h with h | h <;>
      simp [normalizeItem_thumbnail_eq, h, RawOptField.pyGet]
  · simp [normalizeItem_thumbnail_eq, h, RawOptField.pyGet]
  · simp [normalizeItem_thumbnail_eq, h, RawOptField.pyGet]

/-- Claim C3, witness: a hit whose `clip_text` is present with value null
and whose `thumbnail_url` is the empty string normalizes to `clip_text = ""`
and `thumbnail_url = some ""`. -/
theorem normalizeItem_clipText_thumbnail_witness :
    (normalizeItem [] sampleItem).clip_text = "" ∧
    (normalizeItem [] sampleItem).thumbnail_url = some "" ∧
    (normalizeItem [] sampleItem).thumbnail_url ≠ none :=
  ⟨(normalizeItem_clipText_thumbnail [] sampleItem).1 (Or.inr rfl),
   ((normalizeItem_clipText_thumbnail [] sampleItem).2.2.2.2 rfl).1,
   ((normalizeItem_clipText_thumbnail [] sampleItem).2.2.2.2 rfl).2⟩

/-! ## Claim C4 -/

/-- Claim C4, counterexample: a batch of a failing video `a.mp4` followed by
a successful `b.mp4` ends with a catalog holding only the record of
`b.mp4`; the failed video has no record at all and nothing in the catalog
carries a `Failed` status. -/
theorem generateEmbeddings_no_failed_record :
    uploadVideo jobFail = none ∧
    jobFail.name = "a.mp4" ∧
    generateEmbeddings [jobFail, jobOkB] =
      [{ video_id := "vid-b", task_id := "task-b", filename := "b.mp4",
         filepath := "data/videos/b.mp4", status := "ready" }] ∧
    (generateEmbeddings [jobFail, jobOkB]).all
      (fun r => r.filename != "a.mp4" && r.status != "Failed") = true :=
  ⟨rfl, rfl, rfl, by decide⟩

/-- Claim C4, amended: when the register/upload call for one video fails,
the orchestrator records nothing for that video — the batch result is as if
the file were absent — and continues with the remaining files; no record
with a failed status exists, every catalog record has `status = "ready"`. -/
theorem generateEmbeddings_skips_failed (pre post : List FileJob) (j : FileJob)
    (h : uploadVideo j = none) :
    generateEmbeddings (pre ++ j :: post) = generateEmbeddings (pre ++ post) ∧
    ∀ r ∈ generateEmbeddings (pre ++ j :: post), r.status = "ready" := by
  constructor
  · simp [generateEmbeddings_eq_filterMap, h]
  · intro r hr
    rw [generateEmbeddings_eq_filterMap] at hr
    rcases List.mem_filterMap.mp hr with ⟨j2, _, hj2⟩
    exact uploadVideo_status j2 r hj2

/-- Claim C4, witness: the failing `a.mp4` followed by the successful
`b.mp4` yields the same catalog as the batch without `a.mp4`. -/
theorem generateEmbeddings_skips_failed_witness :
    generateEmbeddings [jobFail, jobOkB] = generateEmbeddings [jobOkB] :=
  (generateEmbeddings_skips_failed [] [jobOkB] jobFail rfl).1

/-! ## Claim C5 -/

/-- Claim C5: on a response of six flat entries, `search_text` returns only
the hits of the first five top-level entries — the loop breaks at
`item_count >= 5` — while `search_image`, which has no such break, flattens
all six.  The sixth hit of the text-search response does not appear. -/
theorem searchText_drops_sixth_hit :
    (searchTextResults sixFlatItems).map RawHit.video_id =
      ["v1", "v2", "v3", "v4", "v5"] ∧
    (searchImageResults sixFlatItems).map RawHit.video_id =
      ["v1", "v2", "v3", "v4", "v5", "v6"] ∧
    ((searchTextResults sixFlatItems).map RawHit.video_id).contains "v6" = false :=
  ⟨rfl, rfl, by decide⟩

/-! ## Claim C6 -/

/-- Claim C6, counterexample: in a two-video batch, after the first video
reaches its terminal state the in-memory catalog holds its record but the
persisted catalog is still the initial (empty) file and no save has
happened; the single save occurs only once the whole batch is done. -/
theorem midBatch_persisted_misses_completed :
    (processVideo (initState []) jobOkA).catalog = [vdA] ∧
    (processVideo (initState []) jobOkA).persisted = [] ∧
    vdA ∉ (processVideo (initState []) jobOkA).persisted ∧
    (processVideo (initState []) jobOkA).saves = 0 ∧
    (generateEmbeddingsRun [] [jobOkA, jobOkB]).saves = 1 :=
  ⟨rfl, rfl, by decide, rfl, rfl⟩

/-- Claim C6, amended: the orchestrator persists the catalog exactly once,
after the whole batch — the loop never writes the file, so at every point
of the batch the persisted catalog is still the pre-run file, and the one
save at the end writes the records of all successful videos. -/
theorem generateEmbeddings_saves_once (p0 : List VideoData) (jobs : List FileJob) :
    (jobs.foldl processVideo (initState p0)).saves = 0 ∧
    (jobs.foldl processVideo (initState p0)).persisted = p0 ∧
    (generateEmbeddingsRun p0 jobs).saves = 1 ∧
    (generateEmbeddingsRun p0 jobs).persisted = generateEmbeddings jobs := by
  refine ⟨?_, ?_, ?_, ?_⟩
  · simp [foldl_processVideo, initState]
  · simp [foldl_processVideo, initState]
  · simp [generateEmbeddingsRun, saveEmbeddings, foldl_processVideo, initState]
  · simp [generateEmbeddingsRun, saveEmbeddings, foldl_processVideo, initState,
      generateEmbeddings_eq_filterMap]

/-! ## Claim C7 -/

/-- Claim C7: saving any catalog — the index id and the video records, zero
or more — and reading it back with the readers' own field accesses returns
the catalog unchanged. -/
theorem decodeCatalog_encodeCatalog (c : Catalog) :
    decodeCatalog (encodeCatalog c) = c := by
  rcases c with ⟨iid, vids⟩
  cases iid <;>
    simp [decodeCatalog, encodeCatalog, Json.lookupKey, List.lookup,
      map_decodeVideo_encodeVideo]

/-! ## Claim C8 -/

/-- Claim C8, counterexample: when the listing call fails while the remote
service does hold a collection named `semantic_video_search_poc`, the
orchestrator falls through to creation and a second collection with that
logical name comes to exist. -/
theorem createIndex_duplicate_when_listing_fails :
    existingIdx.index_name = some pocIndexName ∧
    createIndexResolve (listCollections [existingIdx] (some "ConnectionError"))
      (.ok "idx-new") = some ("idx-new", true) :=
  ⟨rfl, rfl⟩

/-- Claim C8, amended: when the listing call succeeds, the orchestrator
reuses the first collection whose name matches and creates only if none
matches; when the listing call fails, it falls back to creating a new
collection even if one with that name already exists. -/
theorem createIndexResolve_lookup_first (remote : List RemoteIndex)
    (createResult : TLResult String) :
    (∀ idx, remote.find? (fun i => i.index_name == some pocIndexName) = some idx →
        createIndexResolve (.ok remote) createResult = some (idx.id, false)) ∧
    (remote.find? (fun i => i.index_name == some pocIndexName) = none →
        createIndexResolve (.ok remote) createResult =
          (match createResult with
           | .ok newId => some (newId, true)
           | .err _ => none)) ∧
    (∀ e, createIndexResolve (.err e) createResult =
        (match createResult with
         | .ok newId => some (newId, true)
         | .err _ => none)) := by
  refine ⟨fun idx h => ?_, fun h => ?_, fun e => rfl⟩
  · simp [createIndexResolve, h]
  · simp [createIndexResolve, h]

/-- Claim C8, witness: the amended theorem at a one-element listing that
carries the collection name — the existing id is reused and nothing is
created. -/
theorem createIndexResolve_lookup_first_witness :
    createIndexResolve (.ok [existingIdx]) (.err "unreachable") =
      some ("idx-old", false) :=
  (createIndexResolve_lookup_first [existingIdx] (.err "unreachable")).1
    existingIdx (by rfl)

/-! ## Claim C9 -/

/-- Claim C9: every client operation maps its remote outcome to a tagged
result — on a raised exception the operation returns the failure tag with
that exception's message, never re-raising; on success it returns the
success tag with the operation's data, and `wait_for_task_completion`
additionally tags a task that ends in a status other than `"ready"` as a
failure naming that status. -/
theorem client_tagged_results :
    (∀ e, clientTestConnection (.error e) = .err e) ∧
    (∀ idxs, clientTestConnection (.ok idxs) = .ok idxs) ∧
    (∀ nm e, clientCreateIndex nm (.error e) = .err e) ∧
    (∀ nm newId, clientCreateIndex nm (.ok newId) = .ok (newId, nm)) ∧
    (∀ e, clientUploadVideo (.error e) = .err e) ∧
    (∀ t, clientUploadVideo (.ok t) = .ok t) ∧
    (∀ e, clientGetTaskStatus (.error e) = .err e) ∧
    (∀ t, clientGetTaskStatus (.ok t) = .ok t) ∧
    (∀ e, clientWaitForTaskCompletion (.error e) = .err e) ∧
    (∀ t, clientWaitForTaskCompletion (.ok t) =
        if t.status ≠ "ready" then .err ("Indexing failed with status " ++ t.status)
        else .ok t) ∧
    (∀ e, clientSearchText (.error e) = .err e) ∧
    (∀ items, clientSearchText (.ok items) = .ok (searchTextResults items)) ∧
    (∀ e, clientSearchImage (.error e) = .err e) ∧
    (∀ items, clientSearchImage (.ok items) = .ok (searchImageResults items)) :=
  ⟨fun _ => rfl, fun _ => rfl, fun _ _ => rfl, fun _ _ => rfl, fun _ => rfl,
   fun _ => rfl, fun _ => rfl, fun _ => rfl, fun _ => rfl, fun _ => rfl,
   fun _ => rfl, fun _ => rfl, fun _ => rfl, fun _ => rfl⟩

/-! ## Claim C10 -/

/-- Claim C10: searching a one-vector index with `k = 2` does not return
exactly the one indexed entry — the FAISS padding row keeps label `-1`,
which passes the `idx < len(self.metadata)` guard, and Python's negative
indexing turns it into the last metadata entry, so that entry comes back
twice, the second time with the engine's padding score. -/
theorem vdbSearch_duplicates_last_when_k_exceeds (pad : ℚ) :
    vdbSearch [vecMeta0] [1] pad 2 = [(vecMeta0, 1), (vecMeta0, pad)] ∧
    (vdbSearch [vecMeta0] [1] pad 2).map Prod.fst = [vecMeta0, vecMeta0] :=
  ⟨rfl, rfl⟩

end SVS
